import Mathlib

/-!
Shallow embedding of the validation module of `src/unnamed/part_000`
(a Vite/ES6 book-catalog project).  The module exports `patterns`,
`messages`, a `validators` table of per-field checks, `validateBook`
(whole-record validation) and `validateField` (live single-field
validation).  Field values arriving from the form are JavaScript
values: `null`/`undefined`, strings, or the nested detail object;
they are embedded as `JSVal`.  Machine-level JavaScript behaviour
that the validators depend on (string trimming, the `ToNumber`
coercion used by the `>` comparison in the price validator) is
embedded explicitly below.
-/

/-- Nested detail record of a book (data model of the source: the form
collects `pageCount`, `coverImageUrl`, `description`, `language`,
`publisher`, `edition`; a missing input is `none`). -/
structure Detail where
  pageCount : Option String := none
  coverImageUrl : Option String := none
  description : Option String := none
  language : Option String := none
  publisher : Option String := none
  edition : Option String := none
deriving DecidableEq, Repr

/-- Top-level book record destructured by `validateBook`. -/
structure Book where
  title : Option String := none
  author : Option String := none
  isbn : Option String := none
  coverImageUrl : Option String := none
  price : Option String := none
  pageCount : Option String := none
  publishDate : Option String := none
  detail : Option Detail := none
deriving DecidableEq, Repr

/-- JavaScript value reaching a validator: `null`/`undefined`, a string,
or the nested detail object. -/
inductive JSVal where
  | null : JSVal
  | str : String → JSVal
  | obj : Detail → JSVal
deriving DecidableEq, Repr

/-- Validation result `\x7b isValid, message?, field? \x7d`; an absent key
(including a key whose value is `undefined`) is `none`. -/
structure VResult where
  isValid : Bool
  message : Option String := none
  field : Option String := none
deriving DecidableEq, Repr

/-- Leading- and trailing-whitespace removal on a character list, the
trimming JavaScript `String.prototype.trim` performs (restricted to the
ASCII whitespace that actually occurs in form input). -/
def trimChars (cs : List Char) : List Char :=
  ((cs.dropWhile Char.isWhitespace).reverse.dropWhile Char.isWhitespace).reverse

/-- Modelled from the spec: `stringUtils.isEmpty` of `src/utils/helpers`
(a file absent from the snapshot).  The spec defines the required rule as:
a value is missing if it is null/absent, or, after removing leading and
trailing whitespace, has zero length; a present detail object is neither
null nor a zero-length text, hence never empty. -/
def isEmpty : JSVal → Bool
  | JSVal.null => true
  | JSVal.str s => (trimChars s.data).isEmpty
  | JSVal.obj _ => false

/-- Modelled from the spec: `stringUtils.safeTrim` of `src/utils/helpers`
(absent from the snapshot): returns the value with leading and trailing
whitespace removed, and is only ever applied (in reachable source paths)
after `isEmpty` ruled out null values; non-text values are mapped to the
empty string. -/
def safeTrim : JSVal → String
  | JSVal.null => String.mk []
  | JSVal.str s => String.mk (trimChars s.data)
  | JSVal.obj _ => String.mk []

/-- Value of a digit list read in base 10 (for the sign test of the JS
numeric coercion; `"007"` gives `7`). -/
def digitsVal (cs : List Char) : Nat :=
  cs.foldl (fun a c => a * 10 + (c.toNat - 48)) 0

/-- Decimal-digits grammar of JavaScript `ToNumber` (optional integer
part, optional point and fraction part, at least one digit in all);
`none` embeds NaN.  The returned value is scaled by a power of ten
(fraction digits are appended to the integer digits): only its sign is
ever consulted, by `jsStrGtZero`.  Exponent, hex and `Infinity` forms do
not occur in the analysed inputs and are mapped to NaN. -/
def parseDigits? (cs : List Char) : Option Nat :=
  let ip := cs.takeWhile Char.isDigit
  match cs.dropWhile Char.isDigit with
  | [] => if ip.isEmpty then none else some (digitsVal ip)
  | '.' :: fp =>
    if fp.all Char.isDigit && !(ip.isEmpty && fp.isEmpty) then
      some (digitsVal (ip ++ fp))
    else none
  | _ => none

/-- JavaScript `ToNumber` on an (already trimmed) string, up to scaling:
the empty string is `0`, an optional sign precedes the digits, anything
outside the decimal grammar is NaN (`none`). -/
def parseJsNum? (cs : List Char) : Option Int :=
  match cs with
  | [] => some 0
  | c :: rest =>
    if c == '+' then (parseDigits? rest).map (fun n => (n : Int))
    else if c == '-' then (parseDigits? rest).map (fun n => -(n : Int))
    else (parseDigits? (c :: rest)).map (fun n => (n : Int))

/-- JavaScript comparison `s > 0` for a string `s`: the abstract
relational comparison coerces `s` with `ToNumber` and evaluates to false
when the coercion yields NaN. -/
def jsStrGtZero (s : String) : Bool :=
  match parseJsNum? s.data with
  | some n => decide (0 < n)
  | none => false

/-- Splitting a character list at a separator character, as JavaScript
regex alternation over hyphen-free groups decomposes a hyphenated
subject (`splitOnChar '-' "a-b"` gives the two groups). -/
def splitOnChar (sep : Char) : List Char → List (List Char)
  | [] => [[]]
  | c :: rest =>
    let r := splitOnChar sep rest
    if c == sep then [] :: r
    else
      match r with
      | [] => [[c]]
      | h :: t => (c :: h) :: t

/-- Required-field messages (`messages.required` object of the source). -/
def messages.required.title : String := "제목을 입력해주세요."

def messages.required.author : String := "저자를 입력해주세요."

def messages.required.isbn : String := "ISBN을 입력해주세요."

def messages.required.price : String := "가격을 입력해주세요."

def messages.required.publishDate : String := "출판일을 입력해주세요."

/-- Required-field messages of the nested `messages.required.detail`
object of the source. -/
def messages.required.detail.description : String := "정보를 입력해주세요."

def messages.required.detail.language : String := "언어를 입력해주세요."

def messages.required.detail.pageCount : String := "페이지 수를 입력해주세요."

def messages.required.detail.publisher : String := "출판사를 입력해주세요."

def messages.required.detail.coverImageUrl : String := "표지 이미지 URL을 입력해주세요."

def messages.required.detail.edition : String := "판형을 입력해주세요."

/-- Format messages (`messages.format` object of the source). -/
def messages.format.isbn : String :=
  "ISBN은 하이픈을 포함한 10-13자리로 설정해주세요. 예: 978-3-16-148410-0"

def messages.format.coverImageUrl : String :=
  "올바른 이미지 URL 형식이 아닙니다. 예: http://example.com/image.jpg"

def messages.format.price : String := "올바른 가격 형식이 아닙니다. 예: 10000"

def messages.format.pageCount : String := "페이지 수는 0보다 큰 숫자여야 합니다. 예: 300"

/-- JavaScript property access `messages.required.<key>` as the validators
perform it: only `title`, `author`, `isbn`, `price` and `publishDate` are
string-valued keys of `messages.required`; in particular `pageCount` and
`coverImageUrl` are NOT keys of that object (they exist only inside the
nested `messages.required.detail` object), so reading them yields
`undefined`, embedded as `none`. -/
def messages.requiredLookup (key : String) : Option String :=
  if key = "title" then some messages.required.title
  else if key = "author" then some messages.required.author
  else if key = "isbn" then some messages.required.isbn
  else if key = "price" then some messages.required.price
  else if key = "publishDate" then some messages.required.publishDate
  else none

/-- JavaScript property access `messages.format.<key>` as the validators
perform it: only `isbn`, `coverImageUrl`, `price` and `pageCount` are
keys of `messages.format`; in particular `publishDate` is NOT among
them, so the access `messages.format.publishDate` performed by
`validators.publishDate` yields `undefined`, embedded as `none`. -/
def messages.formatLookup (key : String) : Option String :=
  if key = "isbn" then some messages.format.isbn
  else if key = "coverImageUrl" then some messages.format.coverImageUrl
  else if key = "price" then some messages.format.price
  else if key = "pageCount" then some messages.format.pageCount
  else none

/-- Regex `patterns.pageCount = ^[1-9][0-9]*$` as a full-string matcher. -/
def patterns.pageCount (s : String) : Bool :=
  match s.data with
  | [] => false
  | c :: rest => (c.isDigit && c != '0') && rest.all Char.isDigit

/-- Regex `patterns.publishDate = ^\d\x7b4\x7d-\d\x7b2\x7d-\d\x7b2\x7d$` as a
full-string matcher. -/
def patterns.publishDate (s : String) : Bool :=
  match s.data with
  | [y1, y2, y3, y4, h1, m1, m2, h2, d1, d2] =>
    y1.isDigit && y2.isDigit && y3.isDigit && y4.isDigit &&
    h1 == '-' && m1.isDigit && m2.isDigit && h2 == '-' &&
    d1.isDigit && d2.isDigit
  | _ => false

/-- Character class `[\w\-]` of the URL regex. -/
def wordChar (c : Char) : Bool := c.isAlphanum || c == '_' || c == '-'

/-- Host part `([\w\-]+\.)+[\w\-]+` of the URL regex: at least two
dot-separated non-empty labels of word characters (the quantified groups
cannot contain a dot, so the decomposition at dots is forced). -/
def hostOk (cs : List Char) : Bool :=
  let labels := splitOnChar '.' cs
  decide (2 ≤ labels.length) && labels.all (fun l => !l.isEmpty && l.all wordChar)

/-- Scheme-less remainder of the URL regex, `([\w\-]+\.)+[\w\-]+(\/\S*)?`:
the host runs to the first slash (no slash is a word character or a dot),
and an optional path starts at that slash and contains no whitespace. -/
def urlTail (cs : List Char) : Bool :=
  let host := cs.takeWhile (fun c => c != '/')
  let rest := cs.drop host.length
  hostOk host && (rest.isEmpty || rest.all (fun c => !c.isWhitespace))

/-- Regex `patterns.coverImageUrl =
^(https?:\/\/)?([\w\-]+\.)+[\w\-]+(\/\S*)?$` as a full-string matcher;
the optional scheme alternative is tried both taken and not taken, as
regex backtracking does. -/
def patterns.coverImageUrl (s : String) : Bool :=
  let cs := s.data
  (cs.take 7 == "http://".data && urlTail (cs.drop 7)) ||
  (cs.take 8 == "https://".data && urlTail (cs.drop 8)) ||
  urlTail cs

/-- First hyphen-separated group of the ISBN regex,
`(97(8|9))?\d\x7b1,5\x7d`: all digits, of length 1 to 5, or of length
4 to 8 when it starts with `978` or `979`. -/
def isbnGroup1 (cs : List Char) : Bool :=
  cs.all Char.isDigit &&
  ((decide (1 ≤ cs.length) && decide (cs.length ≤ 5)) ||
   ((cs.take 3 == ['9', '7', '8'] || cs.take 3 == ['9', '7', '9']) &&
    decide (4 ≤ cs.length) && decide (cs.length ≤ 8)))

/-- Middle group `\d\x7b1,7\x7d` of the ISBN regex. -/
def isbnMid (cs : List Char) : Bool :=
  (decide (1 ≤ cs.length) && decide (cs.length ≤ 7)) && cs.all Char.isDigit

/-- Last group `[\dX]\x7b1,7\x7d` of the ISBN regex. -/
def isbnLast (cs : List Char) : Bool :=
  (decide (1 ≤ cs.length) && decide (cs.length ≤ 7)) &&
  cs.all (fun c => c.isDigit || c == 'X')

/-- Local regex `isbnPattern =
^(97(8|9))?\d\x7b1,5\x7d-\d\x7b1,7\x7d-\d\x7b1,7\x7d-[\dX]\x7b1,7\x7d$` of
`validators.isbn` as a full-string matcher: the pattern spends exactly
three literal hyphens and no group can contain one, so a subject matches
exactly when it splits at its hyphens into four groups satisfying the
group patterns. -/
def isbnPattern (s : String) : Bool :=
  match splitOnChar '-' s.data with
  | [g1, g2, g3, g4] => isbnGroup1 g1 && isbnMid g2 && isbnMid g3 && isbnLast g4
  | _ => false

/-- `validators.title` of the source. -/
def validators.title (v : JSVal) : VResult :=
  if isEmpty v then
    { isValid := false
      message := messages.requiredLookup "title"
      field := some "title" }
  else { isValid := true }

/-- `validators.isbn` of the source. -/
def validators.isbn (v : JSVal) : VResult :=
  if isEmpty v then
    { isValid := false
      message := messages.requiredLookup "isbn"
      field := some "isbn" }
  else if !(isbnPattern (safeTrim v)) then
    { isValid := false
      message := messages.formatLookup "isbn"
      field := some "isbn" }
  else { isValid := true }

/-- `validators.author` of the source. -/
def validators.author (v : JSVal) : VResult :=
  if isEmpty v then
    { isValid := false
      message := messages.requiredLookup "author"
      field := some "author" }
  else { isValid := true }

/-- `validators.coverImageUrl` of the source; its first branch reads
`messages.required.coverImageUrl`, a key the `messages.required` object
does not carry, so that message is `undefined`. -/
def validators.coverImageUrl (v : JSVal) : VResult :=
  if isEmpty v then
    { isValid := false
      message := messages.requiredLookup "coverImageUrl"
      field := some "coverImageUrl" }
  else if !(patterns.coverImageUrl (safeTrim v)) then
    { isValid := false
      message := messages.formatLookup "coverImageUrl"
      field := some "coverImageUrl" }
  else { isValid := true }

/-- `validators.price` of the source: after the required check, the code
runs `if (safeTrim(price) > 0)` — a string-to-number relational
comparison — and FAILS the value when the comparison is true, falling
through to a passing result otherwise. -/
def validators.price (v : JSVal) : VResult :=
  if isEmpty v then
    { isValid := false
      message := messages.requiredLookup "price"
      field := some "price" }
  else if jsStrGtZero (safeTrim v) then
    { isValid := false
      message := some "가격은 0보다 큰 숫자여야 합니다."
      field := some "price" }
  else { isValid := true }

/-- `validators.pageCount` of the source; its first branch reads
`messages.required.pageCount`, a key the `messages.required` object does
not carry (it exists only as `messages.required.detail.pageCount`), so
that message is `undefined`. -/
def validators.pageCount (v : JSVal) : VResult :=
  if isEmpty v then
    { isValid := false
      message := messages.requiredLookup "pageCount"
      field := some "pageCount" }
  else if !(patterns.pageCount (safeTrim v)) then
    { isValid := false
      message := messages.formatLookup "pageCount"
      field := some "pageCount" }
  else { isValid := true }

/-- `validators.publishDate` of the source; its format branch reads
`messages.format.publishDate`, a key the `messages.format` object does
not carry, so that message is `undefined`. -/
def validators.publishDate (v : JSVal) : VResult :=
  if isEmpty v then
    { isValid := false
      message := messages.requiredLookup "publishDate"
      field := some "publishDate" }
  else if !(patterns.publishDate (safeTrim v)) then
    { isValid := false
      message := messages.formatLookup "publishDate"
      field := some "publishDate" }
  else { isValid := true }

/-- `validators.detail` of the source: its failure branch reuses
`messages.required.publishDate` and the field name `publishDate`. -/
def validators.detail (v : JSVal) : VResult :=
  if isEmpty v then
    { isValid := false
      message := messages.requiredLookup "publishDate"
      field := some "publishDate" }
  else { isValid := true }

/-- Embedding of an optional string field into the JavaScript value the
destructuring of `validateBook` passes to a validator (an absent
property is `undefined`). -/
def strVal : Option String → JSVal
  | none => JSVal.null
  | some s => JSVal.str s

/-- `validateBook` of the source: missing record, then `title`, then
`author`, each with an early return; when `book.detail` is truthy,
`pageCount` then `coverImageUrl` are re-extracted from the detail object
and checked with early returns; otherwise pass. -/
def validateBook : Option Book → VResult
  | none => { isValid := false, message := some "책 데이터가 필요합니다." }
  | some book =>
    if !(validators.title (strVal book.title)).isValid then
      validators.title (strVal book.title)
    else if !(validators.author (strVal book.author)).isValid then
      validators.author (strVal book.author)
    else
      match book.detail with
      | some d =>
        if !(validators.pageCount (strVal d.pageCount)).isValid then
          validators.pageCount (strVal d.pageCount)
        else if !(validators.coverImageUrl (strVal d.coverImageUrl)).isValid then
          validators.coverImageUrl (strVal d.coverImageUrl)
        else { isValid := true }
      | none => { isValid := true }

/-- `validateField` of the source restricted to its well-behaved inputs:
dispatch over the eight OWN keys of the `validators` object literal, with
the unknown-field fallback for other names.  This matches the JavaScript
lookup `validators[fieldName]` exactly on the eight own keys and on every
name that is not an inherited `Object.prototype` member; the full lookup
semantics, including the inherited members that shadow the fallback, is
`validateFieldJS` below, which agrees with this function on the own
keys. -/
def validateField (fieldName : String) (value : JSVal) : VResult :=
  if fieldName = "title" then validators.title value
  else if fieldName = "isbn" then validators.isbn value
  else if fieldName = "author" then validators.author value
  else if fieldName = "coverImageUrl" then validators.coverImageUrl value
  else if fieldName = "price" then validators.price value
  else if fieldName = "pageCount" then validators.pageCount value
  else if fieldName = "publishDate" then validators.publishDate value
  else if fieldName = "detail" then validators.detail value
  else { isValid := true, message := some "알 수 없는 필드입니다." }

/-- Own keys of the `validators` object literal, in source order. -/
def validatorKeys : List String :=
  ["title", "isbn", "author", "coverImageUrl", "price", "pageCount",
   "publishDate", "detail"]

/-- Members every plain object literal inherits from `Object.prototype`:
property access `validators[fieldName]` finds these after the own keys,
and each of them is a function or (for the `__proto__` accessor) an
object, hence truthy. -/
def objectProtoMembers : List String :=
  ["constructor", "hasOwnProperty", "isPrototypeOf", "propertyIsEnumerable",
   "toLocaleString", "toString", "valueOf", "__proto__", "__defineGetter__",
   "__defineSetter__", "__lookupGetter__", "__lookupSetter__"]

/-- Outcome of the dynamic call `validator(value)` in `validateField`:
either a proper validation result, or the invocation of an inherited
`Object.prototype` member, which yields a JavaScript value that is not a
validation result at all — a string (`toString`, `toLocaleString`), a
boolean (`hasOwnProperty`, `isPrototypeOf`, `propertyIsEnumerable`), an
object (`constructor`, i.e. `Object(value)`), or a thrown `TypeError`
(`__proto__` is not callable, the getter/setter definers reject a
non-function argument).  None of these carries an `isValid` key, so
one constructor embeds them all; no claim consults their further
differences. -/
inductive JSOutcome where
  | ok : VResult → JSOutcome
  | nonResult : JSOutcome
deriving DecidableEq, Repr

/-- `validateField` of the source with the full JavaScript property-lookup
semantics: `validators[fieldName]` returns the own key's validator when
`fieldName` is one of the eight own keys; otherwise it walks the
prototype chain and finds the inherited `Object.prototype` member when
`fieldName` names one — that member is truthy, so `!validator` is false
and the code invokes it, producing a non-result; only when the lookup
yields `undefined` does the unknown-field branch run. -/
def validateFieldJS (fieldName : String) (value : JSVal) : JSOutcome :=
  if fieldName ∈ validatorKeys then JSOutcome.ok (validateField fieldName value)
  else if fieldName ∈ objectProtoMembers then JSOutcome.nonResult
  else JSOutcome.ok { isValid := true, message := some "알 수 없는 필드입니다." }

theorem requiredLookup_title :
    messages.requiredLookup "title" = some messages.required.title := rfl

theorem requiredLookup_author :
    messages.requiredLookup "author" = some messages.required.author := rfl

theorem requiredLookup_publishDate :
    messages.requiredLookup "publishDate" = some messages.required.publishDate := rfl

theorem isWhitespace_eq_false_of_isDigit (c : Char) (h : c.isDigit = true) :
    c.isWhitespace = false := by
  rcases hw : c.isWhitespace with _ | _
  · rfl
  · exfalso
    have hw' : c = ' ' ∨ c = '\t' ∨ c = '\x0d' ∨ c = '\n' := by
      simpa [Char.isWhitespace, or_assoc] using hw
    rcases hw' with h1 | h1 | h1 | h1 <;> subst h1 <;> exact absurd h (by decide)

theorem dropWhile_eq_self_of_forall {α : Type} (p : α → Bool) (l : List α)
    (h : ∀ a ∈ l, p a = false) : l.dropWhile p = l := by
  cases l with
  | nil => rfl
  | cons a t => simp [List.dropWhile_cons, h a (List.mem_cons_self a t)]

theorem takeWhile_eq_self_of_forall {α : Type} (p : α → Bool) (l : List α)
    (h : ∀ a ∈ l, p a = true) : l.takeWhile p = l := by
  induction l with
  | nil => rfl
  | cons a t ih =>
    have ha : p a = true := h a (List.mem_cons_self a t)
    have ht : ∀ x ∈ t, p x = true := fun x hx => h x (List.mem_cons_of_mem a hx)
    simp [List.takeWhile_cons, ha, ih ht]

theorem dropWhile_eq_nil_of_forall {α : Type} (p : α → Bool) (l : List α)
    (h : ∀ a ∈ l, p a = true) : l.dropWhile p = [] := by
  induction l with
  | nil => rfl
  | cons a t ih =>
    have ha : p a = true := h a (List.mem_cons_self a t)
    have ht : ∀ x ∈ t, p x = true := fun x hx => h x (List.mem_cons_of_mem a hx)
    simp [List.dropWhile_cons, ha, ih ht]

theorem trimChars_eq_self_of_digits (cs : List Char)
    (h : ∀ c ∈ cs, c.isDigit = true) : trimChars cs = cs := by
  have h1 : ∀ c ∈ cs, c.isWhitespace = false :=
    fun c hc => isWhitespace_eq_false_of_isDigit c (h c hc)
  have h2 : cs.dropWhile Char.isWhitespace = cs := dropWhile_eq_self_of_forall _ _ h1
  have h3 : ∀ c ∈ cs.reverse, c.isWhitespace = false :=
    fun c hc => h1 c (List.mem_reverse.mp hc)
  unfold trimChars
  rw [h2, dropWhile_eq_self_of_forall _ _ h3, List.reverse_reverse]

theorem beq_plus_eq_false_of_isDigit (c : Char) (h : c.isDigit = true) :
    (c == '+') = false := by
  rcases hb : c == '+' with _ | _
  · rfl
  · have : c = '+' := by simpa using hb
    subst this
    exact absurd h (by decide)

theorem beq_minus_eq_false_of_isDigit (c : Char) (h : c.isDigit = true) :
    (c == '-') = false := by
  rcases hb : c == '-' with _ | _
  · rfl
  · have : c = '-' := by simpa using hb
    subst this
    exact absurd h (by decide)

/-- Ordinary positive numeric string: a non-empty all-digit string whose
decimal value is positive (for example `10000`). -/
def isOrdinaryPosNum (s : String) : Bool :=
  !s.data.isEmpty && s.data.all Char.isDigit && (digitsVal s.data != 0)

/-- C1 (amended): for every ordinary positive numeric price string the
"greater than zero" branch of `validators.price` is reachable and taken:
the JavaScript comparison `safeTrim(price) > 0` coerces the trimmed
string to a number, the comparison is TRUE for every ordinary positive
numeric string, and `validators.price` therefore returns a FAILING
result (`isValid` false, the greater-than-zero message, field `price`)
on every such string. -/
theorem C1_price_positive_numeric_fails (s : String)
    (h : isOrdinaryPosNum s = true) :
    validators.price (JSVal.str s) =
      { isValid := false
        message := some "가격은 0보다 큰 숫자여야 합니다."
        field := some "price" } := by
  have hsplit := h
  simp only [isOrdinaryPosNum, Bool.and_eq_true, Bool.not_eq_true',
    List.all_eq_true, bne_iff_ne, ne_eq] at hsplit
  obtain ⟨⟨hne, hdig⟩, hval⟩ := hsplit
  have hdig' : ∀ c ∈ s.data, c.isDigit = true := hdig
  have hne' : s.data ≠ [] := by
    intro hnil
    rw [hnil] at hne
    simp at hne
  have htrim : trimChars s.data = s.data := trimChars_eq_self_of_digits _ hdig'
  have hE : isEmpty (JSVal.str s) = false := by
    simp only [isEmpty, htrim]
    exact List.isEmpty_eq_false.mpr hne'
  have hS : (safeTrim (JSVal.str s)).data = s.data := by
    show (String.mk (trimChars s.data)).data = s.data
    rw [htrim]
  obtain ⟨c, rest, hcr⟩ : ∃ c rest, s.data = c :: rest := by
    cases hc : s.data with
    | nil => exact absurd hc hne'
    | cons c rest => exact ⟨c, rest, rfl⟩
  have hc : c.isDigit = true := hdig' c (by rw [hcr]; exact List.mem_cons_self c rest)
  have hall : ∀ x ∈ c :: rest, Char.isDigit x = true := by rw [← hcr]; exact hdig'
  have ht : (c :: rest).takeWhile Char.isDigit = c :: rest :=
    takeWhile_eq_self_of_forall _ _ hall
  have hd : (c :: rest).dropWhile Char.isDigit = [] :=
    dropWhile_eq_nil_of_forall _ _ hall
  have hG : jsStrGtZero (safeTrim (JSVal.str s)) = true := by
    have hpos : 0 < digitsVal (c :: rest) := by
      rw [← hcr]
      exact Nat.pos_of_ne_zero hval
    unfold jsStrGtZero
    rw [hS, hcr]
    simp [parseJsNum?, parseDigits?, ht, hd, beq_plus_eq_false_of_isDigit c hc,
      beq_minus_eq_false_of_isDigit c hc, Int.natCast_pos, hpos]
  simp [validators.price, hE, hG]

/-- C1 counterexample: `10000` is an ordinary positive numeric string and
`validators.price` does NOT return a passing result on it, contradicting
the claim that the "greater than zero" branch is unreachable and that
every ordinary positive numeric string passes. -/
theorem C1_counterexample :
    isOrdinaryPosNum "10000" = true ∧
    (validators.price (JSVal.str "10000")).isValid = false :=
  ⟨by decide, by decide⟩

theorem C1_price_positive_numeric_fails_witness :
    isOrdinaryPosNum "10000" = true ∧
    validators.price (JSVal.str "10000") =
      { isValid := false
        message := some "가격은 0보다 큰 숫자여야 합니다."
        field := some "price" } :=
  ⟨by decide, C1_price_positive_numeric_fails "10000" (by decide)⟩

/-- C2 (code bug): the source's own comment and format message cite
`978-3-16-148410-0` as an accepted ISBN, but the regex spends exactly
three hyphens while that example carries four, so `validateField` rejects
it with the ISBN format message; the `1234` half of the claim does hold
(no hyphen at all, rejected with the same format message). -/
theorem C2_isbn_example_rejected :
    validateField "isbn" (JSVal.str "978-3-16-148410-0") =
      { isValid := false, message := some messages.format.isbn, field := some "isbn" } ∧
    validateField "isbn" (JSVal.str "1234") =
      { isValid := false, message := some messages.format.isbn, field := some "isbn" } :=
  ⟨by decide, by decide⟩

/-- C3: `validateBook` never consults `isbn`, `price` or `publishDate`
(its result is invariant under changing them), and any record with
non-empty title and author and no detail object passes as a whole,
whatever those other fields hold. -/
theorem C3_validateBook_ignores_isbn_price_publishDate :
    (∀ (b : Book) (i p pd : Option String),
      validateBook (some b) =
        validateBook (some { b with isbn := i, price := p, publishDate := pd })) ∧
    (∀ b : Book, isEmpty (strVal b.title) = false → isEmpty (strVal b.author) = false →
      b.detail = none → validateBook (some b) = { isValid := true }) := by
  constructor
  · intro b i p pd
    rfl
  · intro b hT hA hD
    simp [validateBook, validators.title, validators.author, hT, hA, hD]

theorem C3_validateBook_ignores_isbn_price_publishDate_witness :
    validateBook (some
      { title := some "객체지향의 사실과 오해", author := some "조영호",
        isbn := some "not an isbn", price := some "-999",
        publishDate := some "2024/13/99" }) = { isValid := true } :=
  C3_validateBook_ignores_isbn_price_publishDate.2 _ (by decide) (by decide) rfl

/-- C4: `validateBook` checks `title` first and returns its required
failure untouched by the remaining fields (the result is invariant under
changing `author` and `detail`); with a non-empty title and an
empty/whitespace author it returns the author required failure. -/
theorem C4_title_author_short_circuit :
    (∀ (b : Book) (a : Option String) (d : Option Detail),
      isEmpty (strVal b.title) = true →
      validateBook (some b) =
        { isValid := false, message := some messages.required.title,
          field := some "title" } ∧
      validateBook (some b) = validateBook (some { b with author := a, detail := d })) ∧
    (∀ b : Book, isEmpty (strVal b.title) = false → isEmpty (strVal b.author) = true →
      validateBook (some b) =
        { isValid := false, message := some messages.required.author,
          field := some "author" }) := by
  constructor
  · intro b a d hT
    have h1 : validateBook (some b) =
        { isValid := false, message := some messages.required.title,
          field := some "title" } := by
      simp [validateBook, validators.title, hT, requiredLookup_title]
    have h2 : validateBook (some { b with author := a, detail := d }) =
        { isValid := false, message := some messages.required.title,
          field := some "title" } := by
      simp [validateBook, validators.title, hT, requiredLookup_title]
    exact ⟨h1, h1.trans h2.symm⟩
  · intro b hT hA
    simp [validateBook, validators.title, validators.author, hT, hA,
      requiredLookup_author]

theorem C4_title_author_short_circuit_witness :
    validateBook (some
      { title := some "   ", author := some "저자",
        detail := some { pageCount := some "300" } }) =
      { isValid := false, message := some messages.required.title,
        field := some "title" } :=
  (C4_title_author_short_circuit.1 _ (some "다른 저자") none (by decide)).1

/-- C5 (code bug): with valid title and author and a present detail whose
`pageCount` is empty, `validateBook` fails on field `pageCount` but its
message is absent — the validator reads `messages.required.pageCount`, a
key that exists only as `messages.required.detail.pageCount`, so the
message the claim promises is `undefined`.  (The pattern-failure branch,
whose `messages.format.pageCount` key does exist, is also evaluated
here for contrast.) -/
theorem C5_empty_pageCount_message_undefined :
    validateBook (some
      { title := some "제목", author := some "저자",
        detail := some
          { pageCount := some "", coverImageUrl := some "http://example.com/x.jpg" } }) =
      { isValid := false, message := none, field := some "pageCount" } ∧
    validateBook (some
      { title := some "제목", author := some "저자",
        detail := some
          { pageCount := some "0", coverImageUrl := some "http://example.com/x.jpg" } }) =
      { isValid := false, message := some messages.format.pageCount,
        field := some "pageCount" } :=
  ⟨by decide, by decide⟩

/-- C6 (code bug): the invariant "whenever `isValid` is false, `message`
is present" fails: the required-failure results of the `pageCount` and
`coverImageUrl` validators carry no message, because the source reads
`messages.required.pageCount` and `messages.required.coverImageUrl`,
keys that exist only inside the nested `messages.required.detail`
object. -/
theorem C6_invariant_counterexample_eval :
    validateField "pageCount" JSVal.null =
      { isValid := false, message := none, field := some "pageCount" } ∧
    validateField "coverImageUrl" JSVal.null =
      { isValid := false, message := none, field := some "coverImageUrl" } :=
  ⟨by decide, by decide⟩

theorem validateFieldJS_agrees_on_own_keys (fieldName : String) (value : JSVal)
    (h : fieldName ∈ validatorKeys) :
    validateFieldJS fieldName value = JSOutcome.ok (validateField fieldName value) := by
  simp [validateFieldJS, h]

/-- C7 counterexample: `toString` has no entry in the validators table,
yet `validateField('toString', value)` does not return the passing
unknown-field result: the property lookup finds the truthy inherited
`Object.prototype.toString`, so the code invokes it and hands back a
plain string with no `isValid` key, contradicting the claim that every
field name with no entry in the table passes. -/
theorem C7_counterexample :
    "toString" ∉ validatorKeys ∧
    validateFieldJS "toString" (JSVal.str "anything") = JSOutcome.nonResult ∧
    validateFieldJS "toString" (JSVal.str "anything") ≠
      JSOutcome.ok { isValid := true, message := some "알 수 없는 필드입니다." } :=
  ⟨by decide, by decide, by decide⟩

/-- C7 (amended): for every field name with no entry in the validator
table that is also not an inherited `Object.prototype` member, and every
value, `validateField` returns the passing result with the informational
unknown-field message — such unknown fields are never reported as
failures; for a name that IS an inherited `Object.prototype` member
(`toString`, `constructor`, `hasOwnProperty`, ...) the lookup finds the
truthy inherited member instead, the code invokes it, and the outcome is
not a validation result at all. -/
theorem C7_unknown_field_amended :
    (∀ (fieldName : String) (value : JSVal),
      fieldName ∉ validatorKeys → fieldName ∉ objectProtoMembers →
      validateFieldJS fieldName value =
        JSOutcome.ok { isValid := true, message := some "알 수 없는 필드입니다." }) ∧
    (∀ (fieldName : String) (value : JSVal),
      fieldName ∉ validatorKeys → fieldName ∈ objectProtoMembers →
      validateFieldJS fieldName value = JSOutcome.nonResult) := by
  constructor
  · intro fieldName value h1 h2
    simp [validateFieldJS, h1, h2]
  · intro fieldName value h1 h2
    simp [validateFieldJS, h1, h2]

theorem C7_unknown_field_amended_witness :
    validateFieldJS "nonexistent" (JSVal.str "anything") =
      JSOutcome.ok { isValid := true, message := some "알 수 없는 필드입니다." } :=
  C7_unknown_field_amended.1 "nonexistent" (JSVal.str "anything") (by decide) (by decide)

/-- C8: the detail validator, reached through `validateField`, fails on
every empty detail value reusing the publishDate required message (and
even the field name `publishDate`), and passes on every non-empty
value. -/
theorem C8_detail_reuses_publishDate_message :
    (∀ v : JSVal, validateField "detail" v = validators.detail v) ∧
    (∀ v : JSVal, isEmpty v = true →
      validators.detail v =
        { isValid := false, message := some messages.required.publishDate,
          field := some "publishDate" }) ∧
    (∀ v : JSVal, isEmpty v = false → validators.detail v = { isValid := true }) := by
  refine ⟨fun v => rfl, ?_, ?_⟩
  · intro v h
    simp [validators.detail, h, requiredLookup_publishDate]
  · intro v h
    simp [validators.detail, h]

theorem C8_detail_reuses_publishDate_message_witness :
    isEmpty JSVal.null = true ∧
    validators.detail JSVal.null =
      { isValid := false, message := some messages.required.publishDate,
        field := some "publishDate" } :=
  ⟨rfl, C8_detail_reuses_publishDate_message.2.1 JSVal.null rfl⟩

/-- C9 (code bug): `2024-01-15` passes the publishDate validator and
`2024/01/15` fails it, but the failure carries NO message: the source
reads `messages.format.publishDate`, a key the `messages.format` object
does not define, so the claimed date format message is `undefined`. -/
theorem C9_publishDate_format_message_undefined :
    validateField "publishDate" (JSVal.str "2024-01-15") = { isValid := true } ∧
    validateField "publishDate" (JSVal.str "2024/01/15") =
      { isValid := false, message := none, field := some "publishDate" } :=
  ⟨by decide, by decide⟩

/-- C10: every non-empty price value whose trimmed string does not
compare greater than the number `0` under the JavaScript numeric
coercion passes `validators.price`; in particular the non-numeric
string `abc` (NaN), the string `0` and negative numeric strings all
pass. -/
theorem C10_price_coercion_false_passes :
    (∀ v : JSVal, isEmpty v = false → jsStrGtZero (safeTrim v) = false →
      validators.price v = { isValid := true }) ∧
    validators.price (JSVal.str "abc") = { isValid := true } ∧
    validators.price (JSVal.str "0") = { isValid := true } ∧
    validators.price (JSVal.str "-25") = { isValid := true } := by
  refine ⟨?_, by decide, by decide, by decide⟩
  intro v h1 h2
  simp [validators.price, h1, h2]

theorem C10_price_coercion_false_passes_witness :
    isEmpty (JSVal.str " 12.5원 ") = false ∧
    jsStrGtZero (safeTrim (JSVal.str " 12.5원 ")) = false ∧
    validators.price (JSVal.str " 12.5원 ") = { isValid := true } :=
  ⟨by decide, by decide,
    C10_price_coercion_false_passes.1 (JSVal.str " 12.5원 ") (by decide) (by decide)⟩
